import Mathlib

/-!
Shallow embedding of the cloudfunction control plane
(`cloudfunction/core/state.py`, `task_manager.py`, `master.py`,
`project.py`) and proofs about the frozen claims.

Modelling conventions:
* Python dicts become association lists `List (String × α)` with
  insert-or-replace (`dictInsert`), lookup (`dictLookup`) and delete
  (`dictErase`), preserving insertion order as CPython dicts do.
* Payloads, results and error messages are opaque `String`s; timestamps
  (`datetime.now().isoformat()`) are `Nat` ticks supplied by the caller.
* The nondeterministic `uuid.uuid4()` suffix of a task id is an explicit
  `String` argument.
* File IO (`_save_task_state` / `_load_task_state`) becomes a second
  association list `disk` inside the task-manager state.
-/

namespace CloudFunction

/-- Lookup in a Python-dict modelled as an association list. -/
def dictLookup {α : Type} : List (String × α) → String → Option α
  | [], _ => none
  | (k', v) :: rest, k => if k' = k then some v else dictLookup rest k

/-- `d[k] = v` on a Python dict: replace in place if the key exists,
append otherwise (CPython keeps insertion order). -/
def dictInsert {α : Type} : List (String × α) → String → α → List (String × α)
  | [], k, v => [(k, v)]
  | (k', v') :: rest, k, v =>
      if k' = k then (k, v) :: rest else (k', v') :: dictInsert rest k v

/-- `del d[k]` on a Python dict (no error if absent: callers guard with `in`). -/
def dictErase {α : Type} : List (String × α) → String → List (String × α)
  | [], _ => []
  | (k', v') :: rest, k =>
      if k' = k then dictErase rest k else (k', v') :: dictErase rest k

/-- Python's `str.startswith`. -/
def pyStartsWith (s pre : String) : Bool :=
  pre.data.isPrefixOf s.data

/-- One message travelling over a project's or task's multiprocessing
queue: the `"stop"` sentinel, an `{"type":"execute",...}` command, a
`{"status":...}` worker response (with optional `result` / `error`
fields, mirroring `dict.get`), or any other object. -/
inductive ChanMsg where
  | stop : ChanMsg
  | execute (function_name : String) (payload : String) : ChanMsg
  | response (status : String) (result : Option String) (error : Option String) : ChanMsg
  | other : ChanMsg
deriving DecidableEq

/-- A recorded OS process handle (`multiprocessing.Process`):
an identity and whether `is_alive()` holds. -/
structure ProcHandle where
  pid : Nat
  alive : Bool
deriving DecidableEq

/-- `ServerState`'s mutable bookkeeping (state.py): recorded processes,
per-project queue/event, per-task queue/event, cached executors.
Events are modelled by their `is_set()` flag; queues by their contents. -/
structure SState where
  processes : List (String × ProcHandle)
  project_queues : List (String × List ChanMsg)
  project_events : List (String × Bool)
  task_queues : List (String × List ChanMsg)
  task_events : List (String × Bool)
  executors : List String
deriving DecidableEq

namespace SState

/-- `ServerState.create_queue`: create the project queue on first
request, reuse thereafter. -/
def create_queue (s : SState) (project_name : String) : SState :=
  match dictLookup s.project_queues project_name with
  | some _ => s
  | none => { s with project_queues := dictInsert s.project_queues project_name [] }

/-- `ServerState.create_event`: create the (unset) project event on
first request, reuse thereafter. -/
def create_event (s : SState) (project_name : String) : SState :=
  match dictLookup s.project_events project_name with
  | some _ => s
  | none => { s with project_events := dictInsert s.project_events project_name false }

/-- `ServerState.get_queue`. -/
def get_queue (s : SState) (project_name : String) : Option (List ChanMsg) :=
  dictLookup s.project_queues project_name

/-- `ServerState.get_event` (the event's `is_set()` flag). -/
def get_event (s : SState) (project_name : String) : Option Bool :=
  dictLookup s.project_events project_name

/-- `ServerState.create_task_queue`. -/
def create_task_queue (s : SState) (task_id : String) : SState :=
  match dictLookup s.task_queues task_id with
  | some _ => s
  | none => { s with task_queues := dictInsert s.task_queues task_id [] }

/-- `ServerState.create_task_event`. -/
def create_task_event (s : SState) (task_id : String) : SState :=
  match dictLookup s.task_events task_id with
  | some _ => s
  | none => { s with task_events := dictInsert s.task_events task_id false }

/-- `ServerState.check_process_status`: recorded, `is_alive()`, and the
project's readiness event exists and is set. -/
def check_process_status (s : SState) (project_name : String) : Bool :=
  match dictLookup s.processes project_name with
  | none => false
  | some process =>
    if !process.alive then false
    else
      match s.get_event project_name with
      | none => false
      | some ev => ev

/-- `ServerState.cleanup_task_resources`: drop the task's queue and
event entries. -/
def cleanup_task_resources (s : SState) (task_id : String) : SState :=
  { s with
    task_queues := dictErase s.task_queues task_id
    task_events := dictErase s.task_events task_id }

/-- `ServerState.terminate_process`: unknown project is a logged no-op
returning `True`; otherwise put the `"stop"` sentinel on the project's
queue (if one exists), join with timeout and force-kill if needed — the
recorded handle is no longer alive afterwards. Exceptions are caught and
reported as `False`; the embedding is total so that path is vacuous. -/
def terminate_process (s : SState) (project_name : String) : SState × Bool :=
  match dictLookup s.processes project_name with
  | none => (s, true)
  | some process =>
    let s1 :=
      match dictLookup s.project_queues project_name with
      | some q =>
          { s with project_queues :=
              dictInsert s.project_queues project_name (q ++ [ChanMsg.stop]) }
      | none => s
    let s2 :=
      { s1 with processes :=
          dictInsert s1.processes project_name { process with alive := false } }
    (s2, true)

/-- `ServerState.cleanup_project`: terminate, then delete the project's
queue, event, process record and cached executor. -/
def cleanup_project (s : SState) (project_name : String) : SState :=
  let s1 := (terminate_process s project_name).1
  { s1 with
    project_queues := dictErase s1.project_queues project_name
    project_events := dictErase s1.project_events project_name
    processes := dictErase s1.processes project_name
    executors := s1.executors.filter (fun n => n ≠ project_name) }

/-- `ServerState.start_project_process`: no-op success while a live
handle exists; cleanup-then-restart when a dead handle exists; otherwise
create queue + event and spawn. `spawn_ok` models whether
`Process(...).start()` raises (the `except` branch returns `False`);
`new_pid` is the spawned process's identity. -/
def start_project_process (s : SState) (project_name : String)
    (spawn_ok : Bool) (new_pid : Nat) : SState × Bool :=
  let s1 :=
    match dictLookup s.processes project_name with
    | some _ =>
        if s.check_process_status project_name then none
        else some (s.cleanup_project project_name)
    | none => some s
  match s1 with
  | none => (s, true)
  | some s1 =>
    let s2 := (s1.create_queue project_name).create_event project_name
    if spawn_ok then
      ({ s2 with processes :=
          dictInsert s2.processes project_name { pid := new_pid, alive := true } }, true)
    else
      (s2, false)

end SState

/-- One task record (`task_info` dict in task_manager.py). -/
structure TaskInfo where
  task_id : String
  project_name : String
  function_name : String
  payload : String
  status : String
  created_at : Nat
  updated_at : Nat
  result : Option String
  error : Option String
deriving DecidableEq

/-- `TaskManager`'s task state: the in-memory `self.tasks` dict and the
one-file-per-task on-disk records under `self.task_dir`. -/
structure TMState where
  tasks : List (String × TaskInfo)
  disk : List (String × TaskInfo)
deriving DecidableEq

namespace TaskManager

/-- `TaskManager._generate_task_id`: `f"{project}_{function}_{uuid4()}"`. -/
def generate_task_id (project_name function_name uuid : String) : String :=
  project_name ++ "_" ++ function_name ++ "_" ++ uuid

/-- `TaskManager._save_task_state`: write the record to the task's file. -/
def save_task_state (tm : TMState) (task_id : String) (task_info : TaskInfo) : TMState :=
  { tm with disk := dictInsert tm.disk task_id task_info }

/-- `TaskManager._load_task_state`: read the task's file if it exists. -/
def load_task_state (tm : TMState) (task_id : String) : Option TaskInfo :=
  dictLookup tm.disk task_id

/-- The loop condition of `TaskManager._get_running_task`: the entry's
*task id* starts with the search string and its status is `created` or
`running`. -/
def running_pred (pre : String) (p : String × TaskInfo) : Bool :=
  pyStartsWith p.1 pre && (p.2.status == "created" || p.2.status == "running")

/-- `TaskManager._get_running_task`: scan `self.tasks` in insertion
order for the first entry satisfying `running_pred` with search string
`f"{project_name}_{function_name}"`. -/
def get_running_task (tasks : List (String × TaskInfo))
    (project_name function_name : String) : Option TaskInfo :=
  (tasks.find? (running_pred (project_name ++ "_" ++ function_name))).map (fun p => p.2)

/-- Result of `TaskManager.create_task`: updated task-manager and server
state, the returned task record, and the id of the background
`_execute_task` coroutine scheduled via `asyncio.create_task`
(`none` when an existing active task was returned instead). -/
structure CreateResult where
  tm : TMState
  s : SState
  task : TaskInfo
  spawned : Option String
deriving DecidableEq

/-- `TaskManager.create_task`. -/
def create_task (tm : TMState) (s : SState)
    (project_name function_name payload uuid : String) (now : Nat) : CreateResult :=
  match get_running_task tm.tasks project_name function_name with
  | some running_task => ⟨tm, s, running_task, none⟩
  | none =>
    let task_id := generate_task_id project_name function_name uuid
    let task_info : TaskInfo :=
      { task_id := task_id
        project_name := project_name
        function_name := function_name
        payload := payload
        status := "created"
        created_at := now
        updated_at := now
        result := none
        error := none }
    let tm1 : TMState := { tm with tasks := dictInsert tm.tasks task_id task_info }
    let tm2 := save_task_state tm1 task_id task_info
    let s1 := (s.create_task_queue task_id).create_task_event task_id
    ⟨tm2, s1, task_info, some task_id⟩

/-- `TaskManager._execute_task`: the background coroutine. Missing task
id is a logged no-op. Otherwise mark `running` and persist, call
`Master.execute_function` (its outcome is the `outcome` argument:
`.ok result` or `.error message`, the latter also covering a missing
master component), record `completed`/`failed`, and in the `finally`
block persist the final record and release the task's IPC resources. -/
def execute_task (tm : TMState) (s : SState) (task_id : String)
    (outcome : Except String String) (now_run now_done : Nat) : TMState × SState :=
  match dictLookup tm.tasks task_id with
  | none => (tm, s)
  | some task_info =>
    let t1 : TaskInfo := { task_info with status := "running", updated_at := now_run }
    let tm1 : TMState := { tm with tasks := dictInsert tm.tasks task_id t1 }
    let tm2 := save_task_state tm1 task_id t1
    let t2 : TaskInfo :=
      match outcome with
      | .ok r => { t1 with status := "completed", result := some r, updated_at := now_done }
      | .error e => { t1 with status := "failed", error := some e, updated_at := now_done }
    let tm3 : TMState := { tm2 with tasks := dictInsert tm2.tasks task_id t2 }
    let tm4 := save_task_state tm3 task_id t2
    (tm4, s.cleanup_task_resources task_id)

/-- `TaskManager.get_task_status`: in-memory first, then the on-disk
record (which is cached back into memory); absent everywhere is `none`. -/
def get_task_status (tm : TMState) (task_id : String) : TMState × Option TaskInfo :=
  match dictLookup tm.tasks task_id with
  | some task_info => (tm, some task_info)
  | none =>
    match load_task_state tm task_id with
    | some task_info =>
        ({ tm with tasks := dictInsert tm.tasks task_id task_info }, some task_info)
    | none => (tm, none)

/-- `TaskManager.cancel_task`: unknown id or a status outside
`created`/`running` returns `False` without touching anything; otherwise
mark `cancelled`, persist, and release the task's IPC resources. -/
def cancel_task (tm : TMState) (s : SState) (task_id : String) (now : Nat) :
    TMState × SState × Bool :=
  match dictLookup tm.tasks task_id with
  | none => (tm, s, false)
  | some task_info =>
    if task_info.status ≠ "created" ∧ task_info.status ≠ "running" then
      (tm, s, false)
    else
      let t1 : TaskInfo := { task_info with status := "cancelled", updated_at := now }
      let tm1 : TMState := { tm with tasks := dictInsert tm.tasks task_id t1 }
      let tm2 := save_task_state tm1 task_id t1
      (tm2, s.cleanup_task_resources task_id, true)

end TaskManager

namespace Master

/-- One iteration of `Master.execute_function`'s result-wait loop reads
either a message from the project queue or hits the 1-second
`queue.get(timeout=1)` timeout (`Empty`), at which point liveness
(`check_process_status`) is re-checked — `alive` records that check. -/
inductive ReadEvent where
  | msg (m : ChanMsg) : ReadEvent
  | timeout (alive : Bool) : ReadEvent
deriving DecidableEq

/-- How one call of `Master.execute_function` can end: return
`result.get("result")`, raise `Exception(result.get("error"))`, or
raise `Exception(f"... process died during execution")`. -/
inductive ExecOutcome where
  | success (result : Option String) : ExecOutcome
  | failure (error : Option String) : ExecOutcome
  | died : ExecOutcome
deriving DecidableEq

/-- How `Master.execute_function`'s loop body treats one received
message: a dict with status `"success"` returns its `result` field, a
dict with status `"error"` raises its `error` field; every other
message (the dict falls through / non-dict logs a warning) keeps
looping. -/
def process_response (m : ChanMsg) : Option ExecOutcome :=
  match m with
  | ChanMsg.response status r e =>
      if status = "success" then some (ExecOutcome.success r)
      else if status = "error" then some (ExecOutcome.failure e)
      else none
  | _ => none

/-- `Master.execute_function`'s `while True` wait: no overall deadline;
a timed-out read with the worker still live just loops; a timed-out read
with the worker dead raises. `none` means the (finite) event trace ran
out with the call still waiting. -/
def wait_for_result : List ReadEvent → Option ExecOutcome
  | [] => none
  | ReadEvent.msg m :: rest =>
      match process_response m with
      | some o => some o
      | none => wait_for_result rest
  | ReadEvent.timeout alive :: rest =>
      if alive then wait_for_result rest else some ExecOutcome.died

end Master

namespace Worker

/-- Observable behaviour of `Master._run_project_process` up to the end
of worker initialization: how often the readiness event was `set()`,
the messages put on the project queue during initialization, and whether
the worker goes on to serve the message loop. -/
structure InitTrace where
  event_sets : Nat
  queue_msgs : List ChanMsg
  serves_loop : Bool
deriving DecidableEq

/-- The initialization phase of `Master._run_project_process`:
constructing `ProjectProcess` either succeeds (readiness event set once,
then the message loop starts) or raises `init_error` (one
`{"status":"error"}` message is queued, the readiness event is set once,
and the worker process returns — it never serves the loop). -/
def run_project_process_init (init_ok : Bool) (init_error : String) : InitTrace :=
  if init_ok then
    { event_sets := 1, queue_msgs := [], serves_loop := true }
  else
    { event_sets := 1
      queue_msgs := [ChanMsg.response "error" none
        (some ("Failed to initialize project: " ++ init_error))]
      serves_loop := false }

/-- `ProjectProcess.run`'s loop for a worker whose initialization
failed (`self.initialized == False`): it consumes commands, breaks on
`"stop"`, and sends back no response to anything. The returned list is
every response the loop emits. -/
def failed_init_loop : List ChanMsg → List ChanMsg
  | [] => []
  | ChanMsg.stop :: _ => []
  | _ :: rest => failed_init_loop rest

/-- What one project worker knows in order to dispatch an execute
command: `ProjectProcess.initialized` and the names registered in
`ProjectProcess.function_registry`. -/
structure WorkerState where
  initialized : Bool
  function_registry : List String
deriving DecidableEq

/-- Outcome of `ProjectProcess.execute_function_async` together with
whether the call was handed to the worker's thread pool
(`loop.run_in_executor(self.executor, ...)`). -/
structure DispatchTrace where
  result : Except String String
  pooled : Bool

/-- `ProjectProcess.execute_function_async`: raise when the project is
not initialized, raise when the function name is unregistered, and only
otherwise submit the handler to the thread pool (`handler_outcome` is
the handler's own result or raised error). -/
def execute_function_async (w : WorkerState) (function_name : String)
    (handler_outcome : Except String String) : DispatchTrace :=
  if !w.initialized then
    ⟨Except.error "Project not initialized", false⟩
  else if !(w.function_registry.contains function_name) then
    ⟨Except.error ("Function " ++ function_name ++ " not found"), false⟩
  else
    ⟨handler_outcome, true⟩

/-- The `execute` branch of `Master._run_project_process`'s message
loop: a raise from `execute_function_async` is caught and answered with
`{"status":"error","error":...}`; a normal return is answered with
`{"status":"success","result":...}`. -/
def handle_execute (w : WorkerState) (function_name : String)
    (handler_outcome : Except String String) : ChanMsg :=
  match (execute_function_async w function_name handler_outcome).result with
  | Except.ok r => ChanMsg.response "success" (some r) none
  | Except.error e => ChanMsg.response "error" none (some e)

end Worker

/-! Concrete states used to evaluate the definitions on explicit inputs. -/

/-- A server state with nothing recorded. -/
def emptySState : SState := ⟨[], [], [], [], [], []⟩

/-- An active task of the pair `("p", "fx")`. Its id `p_fx_u1` starts
with the string `p_f`, the search key `_get_running_task` uses for the
distinct pair `("p", "f")`. -/
def collisionTask : TaskInfo :=
  { task_id := "p_fx_u1", project_name := "p", function_name := "fx"
    payload := "x", status := "created", created_at := 0, updated_at := 0
    result := none, error := none }

/-- Task-manager state holding only `collisionTask`. -/
def collisionTM : TMState :=
  ⟨[("p_fx_u1", collisionTask)], [("p_fx_u1", collisionTask)]⟩

/-- A freshly created (`status = "created"`) task of the pair `("p", "f")`. -/
def cancelRaceTask : TaskInfo :=
  { task_id := "p_f_u1", project_name := "p", function_name := "f"
    payload := "x", status := "created", created_at := 0, updated_at := 0
    result := none, error := none }

/-- Task-manager state right after `create_task` made `cancelRaceTask`. -/
def cancelRaceTM : TMState :=
  ⟨[("p_f_u1", cancelRaceTask)], [("p_f_u1", cancelRaceTask)]⟩

/-- Server state right after `create_task` made `cancelRaceTask`'s
task queue and task event. -/
def cancelRaceS : SState :=
  ⟨[], [], [], [("p_f_u1", [])], [("p_f_u1", false)], []⟩

/-- A freshly created task of the pair `("q", "g")`. -/
def execTaskW : TaskInfo :=
  { task_id := "q_g_u7", project_name := "q", function_name := "g"
    payload := "y", status := "created", created_at := 0, updated_at := 0
    result := none, error := none }

/-- Task-manager state holding only `execTaskW`. -/
def execTMW : TMState := ⟨[("q_g_u7", execTaskW)], [("q_g_u7", execTaskW)]⟩

/-- Server state holding `execTaskW`'s task queue and task event. -/
def execSW : SState := ⟨[], [], [], [("q_g_u7", [])], [("q_g_u7", false)], []⟩

/-- A task that already reached the terminal status `"completed"`. -/
def doneTask : TaskInfo :=
  { task_id := "p_f_u3", project_name := "p", function_name := "f"
    payload := "x", status := "completed", created_at := 0, updated_at := 1
    result := some "r", error := none }

/-- Task-manager state holding only the terminal `doneTask`. -/
def doneTM : TMState := ⟨[("p_f_u3", doneTask)], [("p_f_u3", doneTask)]⟩

/-- A task whose record exists only on disk (e.g. after a restart). -/
def diskOnlyTask : TaskInfo :=
  { task_id := "p_f_u9", project_name := "p", function_name := "f"
    payload := "x", status := "running", created_at := 0, updated_at := 1
    result := none, error := none }

/-- Task-manager state whose in-memory map is empty but whose disk has
`diskOnlyTask`'s record. -/
def diskOnlyTM : TMState := ⟨[], [("p_f_u9", diskOnlyTask)]⟩

/-- Server state with a recorded but dead worker handle for `"demo"`
(plus its stale queue, set event and cached executor). -/
def deadHandleS : SState :=
  ⟨[("demo", ⟨3, false⟩)], [("demo", [ChanMsg.other])], [("demo", true)], [], [], ["demo"]⟩

/-- Server state with a live, ready worker handle for `"demo"`. -/
def liveHandleS : SState :=
  ⟨[("demo", ⟨3, true⟩)], [("demo", [])], [("demo", true)], [], [], []⟩

/-! Helper lemmas about the dictionary operations and record fields. -/

theorem dictLookup_dictInsert_self {α : Type} (l : List (String × α)) (k : String) (v : α) :
    dictLookup (dictInsert l k v) k = some v := by
  induction l with
  | nil => simp [dictInsert, dictLookup]
  | cons p rest ih =>
      obtain ⟨k', v'⟩ := p
      by_cases h : k' = k
      · simp [dictInsert, dictLookup, h]
      · simp [dictInsert, dictLookup, h, ih]

theorem dictLookup_dictErase_self {α : Type} (l : List (String × α)) (k : String) :
    dictLookup (dictErase l k) k = none := by
  induction l with
  | nil => simp [dictErase, dictLookup]
  | cons p rest ih =>
      obtain ⟨k', v'⟩ := p
      by_cases h : k' = k
      · simp [dictErase, h, ih]
      · simp [dictErase, dictLookup, h, ih]

theorem create_queue_processes (s : SState) (n : String) :
    (s.create_queue n).processes = s.processes := by
  unfold SState.create_queue
  cases dictLookup s.project_queues n <;> rfl

theorem create_event_processes (s : SState) (n : String) :
    (s.create_event n).processes = s.processes := by
  unfold SState.create_event
  cases dictLookup s.project_events n <;> rfl

theorem create_queue_executors (s : SState) (n : String) :
    (s.create_queue n).executors = s.executors := by
  unfold SState.create_queue
  cases dictLookup s.project_queues n <;> rfl

theorem create_event_executors (s : SState) (n : String) :
    (s.create_event n).executors = s.executors := by
  unfold SState.create_event
  cases dictLookup s.project_events n <;> rfl

theorem terminate_process_executors (s : SState) (n : String) :
    ((s.terminate_process n).1).executors = s.executors := by
  unfold SState.terminate_process
  cases dictLookup s.processes n with
  | none => rfl
  | some p => cases dictLookup s.project_queues n <;> rfl

theorem cleanup_project_executors (s : SState) (n : String) :
    (s.cleanup_project n).executors = s.executors.filter (fun x => x ≠ n) := by
  show ((s.terminate_process n).1).executors.filter (fun x => x ≠ n) =
    s.executors.filter (fun x => x ≠ n)
  rw [terminate_process_executors]

/-! The claims. -/

/-- C2. Every response message `Master.execute_function` reads and acts
on is dispatched on its `status` field: a dict with status `"success"`
makes the call return the message's `result` field, and a dict with
status `"error"` makes it raise an error carrying the worker-reported
`error` string. -/
theorem execute_function_response_dispatch :
    ∀ (r e : Option String) (rest : List Master.ReadEvent),
      Master.wait_for_result
          (Master.ReadEvent.msg (ChanMsg.response "success" r e) :: rest) =
        some (Master.ExecOutcome.success r) ∧
      Master.wait_for_result
          (Master.ReadEvent.msg (ChanMsg.response "error" r e) :: rest) =
        some (Master.ExecOutcome.failure e) := by
  intro r e rest
  exact ⟨rfl, rfl⟩

/-- C6. `Master.execute_function`'s wait has no overall caller-side
deadline: a timed-out read with the worker still live just continues
the loop; a timed-out read with the worker dead raises immediately; and
consequently any event trace containing a dead-worker timeout makes the
call terminate with an outcome instead of waiting forever. -/
theorem execute_function_liveness_polling :
    (∀ rest : List Master.ReadEvent,
        Master.wait_for_result (Master.ReadEvent.timeout true :: rest) =
          Master.wait_for_result rest) ∧
    (∀ rest : List Master.ReadEvent,
        Master.wait_for_result (Master.ReadEvent.timeout false :: rest) =
          some Master.ExecOutcome.died) ∧
    (∀ events : List Master.ReadEvent,
        Master.ReadEvent.timeout false ∈ events →
          (Master.wait_for_result events).isSome = true) := by
  refine ⟨fun rest => rfl, fun rest => rfl, ?_⟩
  intro events h
  induction events with
  | nil => cases h
  | cons ev rest ih =>
      cases ev with
      | msg m =>
          have h' : Master.ReadEvent.timeout false ∈ rest := by
            cases h with
            | tail _ h' => exact h'
          show (match Master.process_response m with
            | some o => some o
            | none => Master.wait_for_result rest).isSome = true
          cases hpm : Master.process_response m with
          | none => simpa using ih h'
          | some o => simp
      | timeout alive =>
          cases alive with
          | false => rfl
          | true =>
              have h' : Master.ReadEvent.timeout false ∈ rest := by
                cases h with
                | tail _ h' => exact h'
              simpa using ih h'

/-- C6 witness: a trace of one live timeout followed by one dead
timeout makes the wait terminate with an outcome. -/
theorem execute_function_liveness_polling_witness :
    (Master.wait_for_result
        [Master.ReadEvent.timeout true, Master.ReadEvent.timeout false]).isSome = true :=
  execute_function_liveness_polling.2.2
    [Master.ReadEvent.timeout true, Master.ReadEvent.timeout false] (by decide)

/-- C5 counterexample. A worker whose initialization failed does not
answer execute commands with a "not initialized" error: on the
`ProjectProcess.run` path its loop emits no response at all to an
execute command, and on the `Master._run_project_process` path the
worker never serves the message loop (it exits right after signalling
readiness). -/
theorem failed_init_worker_silent_cex :
    Worker.failed_init_loop [ChanMsg.execute "echo" "x"] = [] ∧
    (Worker.run_project_process_init false "boom").serves_loop = false := by
  decide

/-- C5 amended. The readiness signal is set exactly once as the last
step of initialization whether or not initialization succeeded; but a
worker whose initialization failed puts a single initialization-error
message on the channel and stops serving (master path), and its
`ProjectProcess.run` loop silently consumes every subsequent command,
answering none of them — it does not answer execute commands with a
"not initialized" error. -/
theorem worker_readiness_amended :
    ∀ (ok : Bool) (err : String) (cmds : List ChanMsg),
      (Worker.run_project_process_init ok err).event_sets = 1 ∧
      (ok = false →
          (Worker.run_project_process_init ok err).serves_loop = false ∧
          (Worker.run_project_process_init ok err).queue_msgs =
            [ChanMsg.response "error" none
              (some ("Failed to initialize project: " ++ err))]) ∧
      Worker.failed_init_loop cmds = [] := by
  intro ok err cmds
  refine ⟨?_, ?_, ?_⟩
  · cases ok <;> rfl
  · intro h
    subst h
    exact ⟨rfl, rfl⟩
  · induction cmds with
    | nil => rfl
    | cons c rest ih => cases c <;> simp [Worker.failed_init_loop, ih]

/-- C5 witness: the amended statement evaluated for a worker whose
initialization raised `"boom"` and which then receives one execute
command. -/
theorem worker_readiness_amended_witness :
    (Worker.run_project_process_init false "boom").event_sets = 1 ∧
    ((Worker.run_project_process_init false "boom").serves_loop = false ∧
      (Worker.run_project_process_init false "boom").queue_msgs =
        [ChanMsg.response "error" none
          (some ("Failed to initialize project: " ++ "boom"))]) ∧
    Worker.failed_init_loop [ChanMsg.execute "f" "x"] = [] :=
  ⟨(worker_readiness_amended false "boom" [ChanMsg.execute "f" "x"]).1,
   (worker_readiness_amended false "boom" [ChanMsg.execute "f" "x"]).2.1 rfl,
   (worker_readiness_amended false "boom" [ChanMsg.execute "f" "x"]).2.2⟩

/-- C8. An execute command for a function name absent from the worker's
`function_registry` is never handed to the worker's thread pool, its
result is a raised error, and the master-side worker loop answers it
with an immediate `{"status":"error"}` response. -/
theorem unknown_function_no_dispatch :
    ∀ (w : Worker.WorkerState) (function_name : String)
      (handler_outcome : Except String String),
      w.function_registry.contains function_name = false →
        (Worker.execute_function_async w function_name handler_outcome).pooled = false ∧
        (∃ e, (Worker.execute_function_async w function_name handler_outcome).result =
          Except.error e) ∧
        (∃ e, Worker.handle_execute w function_name handler_outcome =
          ChanMsg.response "error" none (some e)) := by
  intro w function_name handler_outcome h
  cases hw : w.initialized with
  | false =>
      refine ⟨?_, ⟨"Project not initialized", ?_⟩, ⟨"Project not initialized", ?_⟩⟩ <;>
        simp [Worker.execute_function_async, Worker.handle_execute, hw]
  | true =>
      have h' : ¬ function_name ∈ w.function_registry := by simpa using h
      refine ⟨?_, ⟨"Function " ++ function_name ++ " not found", ?_⟩,
          ⟨"Function " ++ function_name ++ " not found", ?_⟩⟩ <;>
        simp [Worker.execute_function_async, Worker.handle_execute, hw, h']

/-- C8 witness: an initialized worker registering only `"echo"`,
receiving an execute command for `"missing"`. -/
theorem unknown_function_no_dispatch_witness :
    (Worker.execute_function_async ⟨true, ["echo"]⟩ "missing" (Except.ok "42")).pooled
        = false ∧
    (∃ e, (Worker.execute_function_async ⟨true, ["echo"]⟩ "missing"
        (Except.ok "42")).result = Except.error e) ∧
    (∃ e, Worker.handle_execute ⟨true, ["echo"]⟩ "missing" (Except.ok "42") =
        ChanMsg.response "error" none (some e)) :=
  unknown_function_no_dispatch ⟨true, ["echo"]⟩ "missing" (Except.ok "42") (by decide)

/-- C3. Code bug: cancelling a task whose status is `created` before
its background coroutine has started does not stick. `cancel_task`
records `cancelled`, but `_execute_task` never re-checks the status, so
when the coroutine then runs it overwrites the state to `running` and
finally `completed` — in memory and on disk — contradicting the
claimed terminal status `cancelled`. -/
theorem cancelled_task_overwritten_by_execute :
    (TaskManager.cancel_task cancelRaceTM cancelRaceS "p_f_u1" 1).2.2 = true ∧
    (dictLookup (TaskManager.cancel_task cancelRaceTM cancelRaceS "p_f_u1" 1).1.tasks
        "p_f_u1").map TaskInfo.status = some "cancelled" ∧
    (dictLookup
        (TaskManager.execute_task
          (TaskManager.cancel_task cancelRaceTM cancelRaceS "p_f_u1" 1).1
          (TaskManager.cancel_task cancelRaceTM cancelRaceS "p_f_u1" 1).2.1
          "p_f_u1" (Except.ok "42") 2 3).1.tasks
        "p_f_u1").map TaskInfo.status = some "completed" ∧
    (dictLookup
        (TaskManager.execute_task
          (TaskManager.cancel_task cancelRaceTM cancelRaceS "p_f_u1" 1).1
          (TaskManager.cancel_task cancelRaceTM cancelRaceS "p_f_u1" 1).2.1
          "p_f_u1" (Except.ok "42") 2 3).1.disk
        "p_f_u1").map TaskInfo.status = some "completed" := by
  decide

theorem running_pred_iff (pre : String) (p : String × TaskInfo) :
    TaskManager.running_pred pre p = true ↔
      (pyStartsWith p.1 pre = true ∧
        (p.2.status = "created" ∨ p.2.status = "running")) := by
  simp [TaskManager.running_pred, Bool.and_eq_true, Bool.or_eq_true, beq_iff_eq]

/-- C1 counterexample. With only a task of the *different* pair
`("p", "fx")` active, `create_task "p" "f"` returns that foreign task
(same id `p_fx_u1`, function `fx`) and creates nothing, because
`_get_running_task` matches task ids by the string prefix `p_f` rather
than by the exact `(project, function)` pair. -/
theorem create_task_prefix_collision_cex :
    (TaskManager.create_task collisionTM emptySState "p" "f" "y" "u2" 5).task =
      collisionTask ∧
    (TaskManager.create_task collisionTM emptySState "p" "f" "y" "u2" 5).spawned = none ∧
    collisionTM.tasks.all (fun p => p.2.function_name ≠ "f") = true ∧
    collisionTask.status = "created" := by
  decide

/-- C1 amended. `create_task`'s de-duplication works on task-id string
prefixes, not exact pairs: when no in-memory task whose id starts with
`project_function` is active (status `created`/`running`), a new task
with fresh id `project_function_uuid` and status `created` is created,
recorded, persisted and returned; when some such prefix-matching active
task exists, `create_task` returns one of them unchanged and creates
nothing — even if it belongs to a different `(project, function)` pair
whose id happens to share the prefix. -/
theorem create_task_prefix_dedup :
    ∀ (tm : TMState) (s : SState) (project_name function_name payload uuid : String)
      (now : Nat),
      ((∀ p ∈ tm.tasks,
          ¬(pyStartsWith p.1 (project_name ++ "_" ++ function_name) = true ∧
            (p.2.status = "created" ∨ p.2.status = "running"))) →
        (TaskManager.create_task tm s project_name function_name payload uuid now).task.task_id =
            project_name ++ "_" ++ function_name ++ "_" ++ uuid ∧
        (TaskManager.create_task tm s project_name function_name payload uuid now).task.status =
            "created" ∧
        (TaskManager.create_task tm s project_name function_name payload uuid now).spawned =
            some (project_name ++ "_" ++ function_name ++ "_" ++ uuid) ∧
        dictLookup
            (TaskManager.create_task tm s project_name function_name payload uuid now).tm.tasks
            (project_name ++ "_" ++ function_name ++ "_" ++ uuid) =
          some (TaskManager.create_task tm s project_name function_name payload uuid now).task ∧
        dictLookup
            (TaskManager.create_task tm s project_name function_name payload uuid now).tm.disk
            (project_name ++ "_" ++ function_name ++ "_" ++ uuid) =
          some (TaskManager.create_task tm s project_name function_name payload uuid now).task) ∧
      ((∃ p ∈ tm.tasks,
          pyStartsWith p.1 (project_name ++ "_" ++ function_name) = true ∧
            (p.2.status = "created" ∨ p.2.status = "running")) →
        (TaskManager.create_task tm s project_name function_name payload uuid now).spawned =
            none ∧
        (TaskManager.create_task tm s project_name function_name payload uuid now).tm = tm ∧
        (TaskManager.create_task tm s project_name function_name payload uuid now).s = s ∧
        ∃ q ∈ tm.tasks,
          (TaskManager.create_task tm s project_name function_name payload uuid now).task =
              q.2 ∧
          pyStartsWith q.1 (project_name ++ "_" ++ function_name) = true ∧
          (q.2.status = "created" ∨ q.2.status = "running")) := by
  intro tm s project_name function_name payload uuid now
  constructor
  · intro h
    have hfind : tm.tasks.find?
        (TaskManager.running_pred (project_name ++ "_" ++ function_name)) = none :=
      List.find?_eq_none.mpr fun p hp hc => h p hp ((running_pred_iff _ _).mp hc)
    have hgrt : TaskManager.get_running_task tm.tasks project_name function_name = none := by
      simp [TaskManager.get_running_task, hfind]
    refine ⟨?_, ?_, ?_, ?_, ?_⟩ <;>
      simp [TaskManager.create_task, hgrt, TaskManager.generate_task_id,
        TaskManager.save_task_state, dictLookup_dictInsert_self]
  · intro h
    cases hfind : tm.tasks.find?
        (TaskManager.running_pred (project_name ++ "_" ++ function_name)) with
    | none =>
        exfalso
        obtain ⟨p, hp, hps, hst⟩ := h
        exact List.find?_eq_none.mp hfind p hp ((running_pred_iff _ _).mpr ⟨hps, hst⟩)
    | some q =>
        have hgrt : TaskManager.get_running_task tm.tasks project_name function_name =
            some q.2 := by
          simp [TaskManager.get_running_task, hfind]
        have hq := (running_pred_iff _ _).mp (List.find?_some hfind)
        refine ⟨?_, ?_, ?_, ⟨q, List.mem_of_find?_eq_some hfind, ?_, hq.1, hq.2⟩⟩ <;>
          simp [TaskManager.create_task, hgrt]

/-- C1 witness: with only the terminal `doneTask` recorded, the pair
`("p", "f")` gets a fresh task `p_f_u4`; with the foreign-pair
`collisionTask` active, the same call returns it unchanged. -/
theorem create_task_prefix_dedup_witness :
    ((TaskManager.create_task doneTM emptySState "p" "f" "z" "u4" 6).task.task_id =
        "p" ++ "_" ++ "f" ++ "_" ++ "u4" ∧
      (TaskManager.create_task doneTM emptySState "p" "f" "z" "u4" 6).task.status =
        "created" ∧
      (TaskManager.create_task doneTM emptySState "p" "f" "z" "u4" 6).spawned =
        some ("p" ++ "_" ++ "f" ++ "_" ++ "u4") ∧
      dictLookup (TaskManager.create_task doneTM emptySState "p" "f" "z" "u4" 6).tm.tasks
          ("p" ++ "_" ++ "f" ++ "_" ++ "u4") =
        some (TaskManager.create_task doneTM emptySState "p" "f" "z" "u4" 6).task ∧
      dictLookup (TaskManager.create_task doneTM emptySState "p" "f" "z" "u4" 6).tm.disk
          ("p" ++ "_" ++ "f" ++ "_" ++ "u4") =
        some (TaskManager.create_task doneTM emptySState "p" "f" "z" "u4" 6).task) ∧
    ((TaskManager.create_task collisionTM emptySState "p" "f" "y" "u2" 5).spawned = none ∧
      (TaskManager.create_task collisionTM emptySState "p" "f" "y" "u2" 5).tm =
        collisionTM ∧
      (TaskManager.create_task collisionTM emptySState "p" "f" "y" "u2" 5).s =
        emptySState ∧
      ∃ q ∈ collisionTM.tasks,
        (TaskManager.create_task collisionTM emptySState "p" "f" "y" "u2" 5).task = q.2 ∧
        pyStartsWith q.1 ("p" ++ "_" ++ "f") = true ∧
        (q.2.status = "created" ∨ q.2.status = "running")) :=
  ⟨(create_task_prefix_dedup doneTM emptySState "p" "f" "z" "u4" 6).1 (by decide),
   (create_task_prefix_dedup collisionTM emptySState "p" "f" "y" "u2" 5).2 (by decide)⟩

/-- C4. Whenever the background coroutine `_execute_task` finishes for
an existing task — normal return or raised error — the in-memory record
and the on-disk record agree, the final status is terminal
(`completed` with the result set, or `failed` with the error set,
matching the execution outcome), and the task's IPC resources (task
queue and task event) are released. -/
theorem execute_task_persist_and_release :
    ∀ (tm : TMState) (s : SState) (task_id : String)
      (outcome : Except String String) (now_run now_done : Nat) (t : TaskInfo),
      dictLookup tm.tasks task_id = some t →
        dictLookup
            (TaskManager.execute_task tm s task_id outcome now_run now_done).1.tasks
            task_id =
          dictLookup
            (TaskManager.execute_task tm s task_id outcome now_run now_done).1.disk
            task_id ∧
        (∃ tf, dictLookup
            (TaskManager.execute_task tm s task_id outcome now_run now_done).1.tasks
            task_id = some tf ∧
          ((∃ v, outcome = Except.ok v ∧ tf.status = "completed" ∧ tf.result = some v) ∨
           (∃ e, outcome = Except.error e ∧ tf.status = "failed" ∧ tf.error = some e))) ∧
        dictLookup
            (TaskManager.execute_task tm s task_id outcome now_run now_done).2.task_queues
            task_id = none ∧
        dictLookup
            (TaskManager.execute_task tm s task_id outcome now_run now_done).2.task_events
            task_id = none := by
  intro tm s task_id outcome n1 n2 t h
  cases outcome with
  | ok v =>
      refine ⟨?_,
        ⟨{ t with status := "completed", result := some v, updated_at := n2 }, ?_,
          Or.inl ⟨v, rfl, rfl, rfl⟩⟩, ?_, ?_⟩ <;>
        simp [TaskManager.execute_task, h, TaskManager.save_task_state,
          SState.cleanup_task_resources, dictLookup_dictInsert_self,
          dictLookup_dictErase_self]
  | error e =>
      refine ⟨?_,
        ⟨{ t with status := "failed", error := some e, updated_at := n2 }, ?_,
          Or.inr ⟨e, rfl, rfl, rfl⟩⟩, ?_, ?_⟩ <;>
        simp [TaskManager.execute_task, h, TaskManager.save_task_state,
          SState.cleanup_task_resources, dictLookup_dictInsert_self,
          dictLookup_dictErase_self]

/-- C4 witness: the coroutine for `execTaskW` whose execution raised
`"boom"` still persists the terminal `failed` record and releases the
task queue and event. -/
theorem execute_task_persist_and_release_witness :
    dictLookup
        (TaskManager.execute_task execTMW execSW "q_g_u7" (Except.error "boom") 2 3).1.tasks
        "q_g_u7" =
      dictLookup
        (TaskManager.execute_task execTMW execSW "q_g_u7" (Except.error "boom") 2 3).1.disk
        "q_g_u7" ∧
    (∃ tf, dictLookup
        (TaskManager.execute_task execTMW execSW "q_g_u7" (Except.error "boom") 2 3).1.tasks
        "q_g_u7" = some tf ∧
      ((∃ v, Except.error "boom" = Except.ok v ∧ tf.status = "completed" ∧
          tf.result = some v) ∨
       (∃ e, (Except.error "boom" : Except String String) = Except.error e ∧
          tf.status = "failed" ∧ tf.error = some e))) ∧
    dictLookup
        (TaskManager.execute_task execTMW execSW "q_g_u7" (Except.error "boom") 2 3).2.task_queues
        "q_g_u7" = none ∧
    dictLookup
        (TaskManager.execute_task execTMW execSW "q_g_u7" (Except.error "boom") 2 3).2.task_events
        "q_g_u7" = none :=
  execute_task_persist_and_release execTMW execSW "q_g_u7" (Except.error "boom") 2 3
    execTaskW (by decide)

/-- C9. `terminate_process` on a project with no recorded process
returns success and changes nothing; `cancel_task` on a task whose
status is terminal returns `False` and leaves the task-manager state
(in-memory record, persisted record) and server state unchanged. -/
theorem terminate_and_cancel_idempotent :
    ∀ (s : SState) (project_name : String) (tm : TMState) (s2 : SState)
      (task_id : String) (now : Nat) (t : TaskInfo),
      (dictLookup s.processes project_name = none →
          s.terminate_process project_name = (s, true)) ∧
      (dictLookup tm.tasks task_id = some t →
          t.status ≠ "created" → t.status ≠ "running" →
          TaskManager.cancel_task tm s2 task_id now = (tm, s2, false)) := by
  intro s project_name tm s2 task_id now t
  constructor
  · intro h
    simp [SState.terminate_process, h]
  · intro h h1 h2
    simp [TaskManager.cancel_task, h, h1, h2]

/-- C9 witness: terminating the never-started project `"ghost"` and
cancelling the already-`completed` `doneTask`. -/
theorem terminate_and_cancel_idempotent_witness :
    SState.terminate_process emptySState "ghost" = (emptySState, true) ∧
    TaskManager.cancel_task doneTM emptySState "p_f_u3" 9 = (doneTM, emptySState, false) :=
  ⟨(terminate_and_cancel_idempotent emptySState "ghost" doneTM emptySState "p_f_u3" 9
      doneTask).1 rfl,
   (terminate_and_cancel_idempotent emptySState "ghost" doneTM emptySState "p_f_u3" 9
      doneTask).2 (by decide) (by decide) (by decide)⟩

/-- C10. `cancel_task` with a task id absent from the in-memory map
returns `False` without modifying anything — in particular the on-disk
records — even when a persisted record for that id exists; unlike
`get_task_status`, which does fall back to the on-disk record. -/
theorem cancel_task_memory_only :
    ∀ (tm : TMState) (s : SState) (task_id : String) (now : Nat),
      (dictLookup tm.tasks task_id = none →
          TaskManager.cancel_task tm s task_id now = (tm, s, false)) ∧
      (∀ t : TaskInfo, dictLookup tm.tasks task_id = none →
          TaskManager.load_task_state tm task_id = some t →
          (TaskManager.get_task_status tm task_id).2 = some t) := by
  intro tm s task_id now
  constructor
  · intro h
    simp [TaskManager.cancel_task, h]
  · intro t h h2
    simp [TaskManager.get_task_status, h, h2]

/-- C10 witness: `diskOnlyTask` exists only on disk; cancelling it
fails and touches nothing, while `get_task_status` still finds it. -/
theorem cancel_task_memory_only_witness :
    TaskManager.cancel_task diskOnlyTM emptySState "p_f_u9" 4 =
      (diskOnlyTM, emptySState, false) ∧
    (TaskManager.get_task_status diskOnlyTM "p_f_u9").2 = some diskOnlyTask :=
  ⟨(cancel_task_memory_only diskOnlyTM emptySState "p_f_u9" 4).1 rfl,
   (cancel_task_memory_only diskOnlyTM emptySState "p_f_u9" 4).2 diskOnlyTask rfl rfl⟩

/-- C7. `start_project_process` is a no-op success while a live handle
exists (the whole state is unchanged, so no second process is spawned);
it reports success whenever the spawn primitive itself does not raise
(failures never propagate, they are returned as `false`); and when a
dead handle exists it cleans the old bookkeeping up before recording a
single fresh live handle. -/
theorem start_project_process_lifecycle :
    ∀ (s : SState) (project_name : String) (spawn_ok : Bool) (new_pid : Nat),
      (s.check_process_status project_name = true →
          s.start_project_process project_name spawn_ok new_pid = (s, true)) ∧
      (spawn_ok = true →
          (s.start_project_process project_name spawn_ok new_pid).2 = true) ∧
      ((dictLookup s.processes project_name).isSome = true →
          s.check_process_status project_name = false → spawn_ok = true →
          dictLookup
              (s.start_project_process project_name spawn_ok new_pid).1.processes
              project_name = some ⟨new_pid, true⟩ ∧
          project_name ∉
            (s.start_project_process project_name spawn_ok new_pid).1.executors) := by
  intro s project_name spawn_ok new_pid
  refine ⟨?_, ?_, ?_⟩
  · intro hc
    have hl : ∃ p, dictLookup s.processes project_name = some p := by
      unfold SState.check_process_status at hc
      cases hp : dictLookup s.processes project_name with
      | none => rw [hp] at hc; cases hc
      | some p => exact ⟨p, rfl⟩
    obtain ⟨p, hp⟩ := hl
    simp [SState.start_project_process, hp, hc]
  · intro hk
    subst hk
    cases hp : dictLookup s.processes project_name with
    | none => simp [SState.start_project_process, hp]
    | some p =>
        by_cases hc : s.check_process_status project_name = true
        · simp [SState.start_project_process, hp, hc]
        · simp [SState.start_project_process, hp, hc]
  · intro hl hc hk
    subst hk
    obtain ⟨p, hp⟩ := Option.isSome_iff_exists.mp hl
    constructor
    · simp [SState.start_project_process, hp, hc, dictLookup_dictInsert_self]
    · have hred : (s.start_project_process project_name true new_pid).1.executors =
          (((s.cleanup_project project_name).create_queue project_name).create_event
            project_name).executors := by
        simp [SState.start_project_process, hp, hc]
      rw [hred, create_event_executors, create_queue_executors, cleanup_project_executors]
      simp [List.mem_filter]

/-- C7 witness: starting `"demo"` while its handle is live is a no-op
success; starting it while its handle is dead spawns exactly one fresh
live handle after cleanup. -/
theorem start_project_process_lifecycle_witness :
    SState.start_project_process liveHandleS "demo" true 7 = (liveHandleS, true) ∧
    (SState.start_project_process deadHandleS "demo" true 7).2 = true ∧
    (dictLookup (SState.start_project_process deadHandleS "demo" true 7).1.processes
        "demo" = some ⟨7, true⟩ ∧
      "demo" ∉ (SState.start_project_process deadHandleS "demo" true 7).1.executors) :=
  ⟨(start_project_process_lifecycle liveHandleS "demo" true 7).1 (by decide),
   (start_project_process_lifecycle deadHandleS "demo" true 7).2.1 rfl,
   (start_project_process_lifecycle deadHandleS "demo" true 7).2.2 (by decide)
     (by decide) rfl⟩

end CloudFunction
